import Mathlib

/-!
Verification development for a single-page NASA APOD gallery viewer
(`js/script.js`). The program fetches a JSON feed of picture-of-the-day
records, renders image cards into a grid, filters them client-side by an
optional date range, and opens a detail overlay on click.

Shallow embedding conventions:
* DOM state touched by the code (fetch button, gallery grid, modal) is
  modelled explicitly as `AppState` / `ModalState`; each handler becomes a
  state-transition function.
* The gallery's rendered content is abstracted as `GalleryView`: either a
  placeholder message or a list of cards (image source, alt text, caption).
* JavaScript `new Date(s)` applied to `YYYY-MM-DD` strings (the only date
  format the program feeds it: APOD record dates and `<input type=date>`
  values) is modelled by `parseDate`, which returns `none` for an invalid
  date (JS "Invalid Date"/NaN) and otherwise a numeral `y*10000+m*100+d`
  that is order-isomorphic to chronological order; the source only ever
  compares dates with `<` and `>`, so any order-isomorphic encoding is a
  faithful model.  Comparisons involving NaN are false in JS, hence
  `jsLtO`/`jsGtO` are false whenever either side is `none`.
* Cosmetic timing (minimum spinner duration, fade-out delays) has no
  observable effect on the final state and is dropped; `transitionToGallery`
  is therefore the same as `buildGallery`.
-/

/-- One APOD record, per the data model: `hdurl` is the only optional
field (`{ title, date, explanation, media_type, url, hdurl? }`). -/
structure Record where
  title : String
  date : String
  explanation : String
  media_type : String
  url : String
  hdurl : Option String
  deriving DecidableEq, Repr

/-- One rendered gallery card: `img.src`, `img.alt`, and the caption
paragraph produced by `buildGallery`. -/
structure Card where
  src : String
  alt : String
  caption : String
  deriving DecidableEq, Repr

/-- The gallery grid's contents: either a single placeholder `div` with a
message, or a list of cards. -/
inductive GalleryView where
  | placeholder (msg : String)
  | cards (cs : List Card)
  deriving DecidableEq, Repr

/-- The mutable page state the handlers touch: the fetch button's
`disabled` flag and `textContent`, the gallery's `aria-busy` attribute and
contents, and the module-level cache `lastFetchedItems`. -/
structure AppState where
  buttonDisabled : Bool
  buttonLabel : String
  galleryBusy : Bool
  galleryView : GalleryView
  cache : Option (List Record)
  deriving DecidableEq, Repr

/-- The modal overlay's state: image `src`/`alt`, the three text slots,
the `show` CSS class, and the `aria-hidden` attribute. -/
structure ModalState where
  imageSrc : String
  imageAlt : String
  title : String
  date : String
  explanation : String
  showClass : Bool
  ariaHidden : Bool
  deriving DecidableEq, Repr

/-- JavaScript `a || b` on strings: `a` when truthy (non-empty), else `b`. -/
def jsOr (a b : String) : String :=
  if a == "" then b else a

/-- Decimal value of a digit character; `none` for a non-digit. -/
def digitVal (c : Char) : Option Nat :=
  if c.isDigit then some (c.toNat - 48) else none

/-- Gregorian leap-year test. -/
def isLeap (y : Nat) : Bool :=
  (y % 4 == 0 && y % 100 != 0) || y % 400 == 0

/-- Number of days in month `m` of a (non-)leap year. -/
def monthLength (leap : Bool) (m : Nat) : Nat :=
  if m = 2 then (if leap then 29 else 28)
  else if m = 4 ∨ m = 6 ∨ m = 9 ∨ m = 11 then 30
  else 31

/-- Model of `new Date(s)` on the `YYYY-MM-DD` strings this program feeds
it.  Returns `none` for anything that is not a calendar-valid
ten-character `YYYY-MM-DD` string (JS yields an Invalid Date, whose NaN
timestamp makes every comparison false), and otherwise the numeral
`y*10000 + m*100 + d`, which orders exactly like the chronological order
JS timestamps give to valid dates. -/
def parseDate (s : String) : Option Nat :=
  match s.data with
  | [y1, y2, y3, y4, s1, m1, m2, s2, d1, d2] =>
    if s1 = '-' ∧ s2 = '-' then
      match digitVal y1, digitVal y2, digitVal y3, digitVal y4,
            digitVal m1, digitVal m2, digitVal d1, digitVal d2 with
      | some a, some b, some c, some e, some f, some g, some h, some i =>
        let y := ((a * 10 + b) * 10 + c) * 10 + e
        let m := f * 10 + g
        let d := h * 10 + i
        if 1 ≤ m ∧ m ≤ 12 ∧ 1 ≤ d ∧ d ≤ monthLength (isLeap y) m then
          some (y * 10000 + m * 100 + d)
        else none
      | _, _, _, _, _, _, _, _ => none
    else none
  | _ => none

/-- JS `<` on two date values; false whenever either side is NaN/absent. -/
def jsLtO : Option Nat → Option Nat → Bool
  | some a, some b => decide (a < b)
  | _, _ => false

/-- JS `>` on two date values; false whenever either side is NaN/absent. -/
def jsGtO : Option Nat → Option Nat → Bool
  | some a, some b => decide (b < a)
  | _, _ => false

/-- `openModal(item)`: fills every modal slot.  The image source is
`item.hdurl || item.url || ''` (JS truthiness: an absent OR empty `hdurl`
falls through to `url`); text slots are `field || ''`; the overlay gets
the `show` class and `aria-hidden="false"`. -/
def openModal (item : Record) : ModalState :=
  { imageSrc := jsOr (jsOr (item.hdurl.getD "") item.url) ""
    imageAlt := jsOr item.title "NASA image"
    title := jsOr item.title ""
    date := jsOr item.date ""
    explanation := jsOr item.explanation ""
    showClass := true
    ariaHidden := false }

/-- `closeModal()`: removes the `show` class, sets `aria-hidden="true"`,
and clears the image source. -/
def closeModal (m : ModalState) : ModalState :=
  { m with showClass := false, ariaHidden := true, imageSrc := "" }

/-- The card `buildGallery` creates for one record: `img.src = item.url`,
`img.alt = item.title || 'APOD image'`, caption `` `${item.title} — ${item.date}` ``. -/
def mkCard (item : Record) : Card :=
  { src := item.url
    alt := jsOr item.title "APOD image"
    caption := item.title ++ " — " ++ item.date }

/-- `buildGallery(items)`: keeps only records with `media_type === 'image'`;
shows the "No images found." placeholder when none remain, else one card
per image record in input order. -/
def buildGallery (items : List Record) : GalleryView :=
  let images := items.filter fun it => it.media_type == "image"
  if images.isEmpty then
    GalleryView.placeholder "No images found."
  else
    GalleryView.cards (images.map mkCard)

/-- The bound passed to the filter: `startVal ? new Date(startVal) : null`.
A JS Invalid Date and `null` behave identically in every comparison the
filter makes (all false), so both are collapsed to `none`. -/
def parseBound (v : String) : Option Nat :=
  if v == "" then none else parseDate v

/-- `if (start && end && start > end) [start, end] = [end, start]`. -/
def swapBounds (s e : Option Nat) : Option Nat × Option Nat :=
  if s.isSome && e.isSome && jsGtO s e then (e, s) else (s, e)

/-- The per-record predicate of `applyFilter`'s `lastFetchedItems.filter`:
drop non-images, then drop records strictly outside a present bound. -/
def keepRecord (startD endD : Option Nat) (it : Record) : Bool :=
  if it.media_type != "image" then false
  else
    let d := parseDate it.date
    if startD.isSome && jsLtO d startD then false
    else if endD.isSome && jsGtO d endD then false
    else true

/-- `applyFilter()` as a state transition, with the two date-input values
as arguments.  Mirrors the source: bail out with a prompt when the cache
is empty; with no bounds render all image records; otherwise parse the
bounds, swap them when `start > end`, filter, and render either the
"no match" placeholder or the filtered gallery. -/
def applyFilter (st : AppState) (startVal endVal : String) : AppState :=
  match st.cache with
  | none =>
    { st with galleryView :=
        GalleryView.placeholder "No data loaded. Click \"Fetch Space Images\" first." }
  | some lastFetchedItems =>
    if startVal == "" && endVal == "" then
      { st with galleryView :=
          buildGallery (lastFetchedItems.filter fun it => it.media_type == "image") }
    else
      let se := swapBounds (parseBound startVal) (parseBound endVal)
      let filtered := lastFetchedItems.filter (keepRecord se.1 se.2)
      if filtered.isEmpty then
        { st with galleryView :=
            GalleryView.placeholder "No images match that date range." }
      else
        { st with galleryView := buildGallery filtered }

/-- The JSON body a successful fetch can yield: an array of records, or an
object whose (key, value) entries hold records. -/
inductive Payload where
  | arr (items : List Record)
  | obj (entries : List (String × Record))
  deriving DecidableEq, Repr

/-- `Object.values(data)`: the mapping's values in mapping order. -/
def objectValues (entries : List (String × Record)) : List Record :=
  entries.map Prod.snd

/-- `Array.isArray(data) ? data : Object.values(data)`. -/
def normalizePayload : Payload → List Record
  | Payload.arr a => a
  | Payload.obj o => objectValues o

/-- `fetchAndShow()` as a state transition over the fetch outcome: an
`Except.error msg` covers both a non-ok response (`'Network response was
not ok'`) and a JSON parse failure.  The `try` block disables the button,
sets the loading label, shows the spinner placeholder and `aria-busy`;
success normalizes and caches the payload and renders it, failure writes
the error placeholder; the `finally` block unconditionally re-enables the
button, restores `originalBtnText || 'Fetch Space Images'`, and removes
`aria-busy`.  Timing waits are cosmetic and dropped. -/
def fetchAndShow (st : AppState) (outcome : Except String Payload) : AppState :=
  let originalBtnText := st.buttonLabel
  let st1 : AppState :=
    { st with buttonDisabled := true
              buttonLabel := "Loading…"
              galleryView := GalleryView.placeholder "Fetching images…"
              galleryBusy := true }
  let st2 : AppState :=
    match outcome with
    | Except.ok data =>
      let items := normalizePayload data
      { st1 with cache := some items, galleryView := buildGallery items }
    | Except.error msg =>
      { st1 with galleryView :=
          GalleryView.placeholder ("Error loading images: " ++ msg) }
  { st2 with buttonDisabled := false
             buttonLabel := jsOr originalBtnText "Fetch Space Images"
             galleryBusy := false }

/-- The image record of the spec's rendering scenario. -/
def recA : Record :=
  { title := "A", date := "2024-01-01", explanation := "", media_type := "image",
    url := "a.jpg", hdurl := none }

/-- The video record of the spec's rendering scenario. -/
def recB : Record :=
  { title := "B", date := "2024-01-05", explanation := "", media_type := "video",
    url := "b.mp4", hdurl := none }

/-- Initial page state: idle button with its markup label, empty cache. -/
def st0 : AppState :=
  { buttonDisabled := false, buttonLabel := "Fetch Space Images",
    galleryBusy := false, galleryView := GalleryView.placeholder "", cache := none }

/-- Page state after a fetch cached the scenario records. -/
def stAB : AppState :=
  { st0 with cache := some [recA, recB] }

/-- A record whose `hdurl` key is present but holds the empty string. -/
def emptyHdurlRec : Record :=
  { title := "A", date := "2024-01-01", explanation := "E", media_type := "image",
    url := "a.jpg", hdurl := some "" }

theorem jsOr_empty_left (b : String) : jsOr "" b = b := rfl

theorem jsOr_empty_right (a : String) : jsOr a "" = a := by
  by_cases h : a = "" <;> simp [jsOr, h]

example : parseDate "2024-01-05" = some 20240105 := by decide
example : parseDate "" = none := by decide
example : parseDate "2024-02-30" = none := by decide
example : parseDate "2024-13-01" = none := by decide
example : parseDate "2024-02-29" = some 20240229 := by decide
example : parseDate "2023-02-29" = none := by decide

/-- C6: given a record sequence, `buildGallery` shows the "No images
found." placeholder when the image-typed subset is empty, and otherwise
emits exactly one card per image record, in input order, with image
source `url` and caption `"title — date"`. -/
theorem buildGallery_cards_spec (items : List Record) :
    ((items.filter fun it => it.media_type == "image") = [] →
      buildGallery items = GalleryView.placeholder "No images found.")
    ∧ ((items.filter fun it => it.media_type == "image") ≠ [] →
      buildGallery items =
        GalleryView.cards ((items.filter fun it => it.media_type == "image").map
          fun it => { src := it.url, alt := jsOr it.title "APOD image",
                      caption := it.title ++ " — " ++ it.date })) := by
  constructor <;> intro h <;>
    simp [buildGallery, h, mkCard, List.isEmpty_iff]

/-- Witness for C6, on the spec's own scenario: records A (image) and
B (video) render as exactly one card, captioned "A — 2024-01-01". -/
theorem buildGallery_cards_spec_witness :
    buildGallery [recA, recB] =
      GalleryView.cards [{ src := "a.jpg", alt := "A", caption := "A — 2024-01-01" }] :=
  ((buildGallery_cards_spec [recA, recB]).2 (by decide)).trans (by decide)

/-- C10: invoking the filter with an empty cache raises no error and does
not touch the cache: the whole state change is replacing the grid content
with a prompt to fetch first. -/
theorem applyFilter_empty_cache (st : AppState) (sv ev : String)
    (h : st.cache = none) :
    applyFilter st sv ev =
      { st with galleryView :=
          GalleryView.placeholder "No data loaded. Click \"Fetch Space Images\" first." } := by
  unfold applyFilter
  rw [h]

/-- Witness for C10 at the initial state. -/
theorem applyFilter_empty_cache_witness :
    applyFilter st0 "" "" =
      { st0 with galleryView :=
          GalleryView.placeholder "No data loaded. Click \"Fetch Space Images\" first." } :=
  applyFilter_empty_cache st0 "" "" rfl

/-- C1: for every fetch outcome (success or failure), `fetchAndShow`
leaves the trigger enabled, clears the gallery's busy indicator, and
restores the button's original (non-empty) label. -/
theorem fetchAndShow_restores_trigger (st : AppState) (outcome : Except String Payload) :
    (fetchAndShow st outcome).buttonDisabled = false
    ∧ (fetchAndShow st outcome).galleryBusy = false
    ∧ (st.buttonLabel ≠ "" → (fetchAndShow st outcome).buttonLabel = st.buttonLabel) := by
  refine ⟨?_, ?_, fun h => ?_⟩
  · cases outcome <;> rfl
  · cases outcome <;> rfl
  · cases outcome <;> simp [fetchAndShow, jsOr, h]

/-- Witness for C1 on a failed fetch from the initial state. -/
theorem fetchAndShow_restores_trigger_witness :
    (fetchAndShow st0 (Except.error "Network response was not ok")).buttonDisabled = false
    ∧ (fetchAndShow st0 (Except.error "Network response was not ok")).galleryBusy = false
    ∧ (fetchAndShow st0 (Except.error "Network response was not ok")).buttonLabel
        = st0.buttonLabel :=
  ⟨(fetchAndShow_restores_trigger st0 _).1,
   (fetchAndShow_restores_trigger st0 _).2.1,
   (fetchAndShow_restores_trigger st0 _).2.2 (by decide)⟩

/-- C8: a successful fetch caches an array payload directly, and caches a
key-value mapping payload as its values in mapping order. -/
theorem fetchAndShow_payload_shapes (st : AppState) (xs : List Record)
    (kvs : List (String × Record)) :
    (fetchAndShow st (Except.ok (Payload.arr xs))).cache = some xs
    ∧ (fetchAndShow st (Except.ok (Payload.obj kvs))).cache = some (kvs.map Prod.snd) :=
  ⟨rfl, rfl⟩

/-- C7 (amended): `openModal` displays `hdurl` when it is present and
non-empty, falls back to `url` when `hdurl` is absent or empty, shows the
record's title, date and explanation, adds the `show` class and marks the
overlay visible to assistive technology (`aria-hidden="false"`). -/
theorem openModal_displays (item : Record) :
    (∀ h, item.hdurl = some h → h ≠ "" → (openModal item).imageSrc = h)
    ∧ ((item.hdurl = none ∨ item.hdurl = some "") →
        (openModal item).imageSrc = item.url)
    ∧ (openModal item).title = item.title
    ∧ (openModal item).date = item.date
    ∧ (openModal item).explanation = item.explanation
    ∧ (openModal item).showClass = true
    ∧ (openModal item).ariaHidden = false := by
  refine ⟨fun h hs hne => ?_, fun hc => ?_, ?_, ?_, ?_, rfl, rfl⟩
  · simp [openModal, jsOr, hs, hne]
  · rcases hc with hc | hc <;>
      simp [openModal, hc, Option.getD, jsOr_empty_left, jsOr_empty_right]
  · exact jsOr_empty_right item.title
  · exact jsOr_empty_right item.date
  · exact jsOr_empty_right item.explanation

/-- Witness for C7's amended theorem: a record without `hdurl` falls back
to `url`. -/
theorem openModal_displays_witness :
    (openModal recA).imageSrc = recA.url :=
  (openModal_displays recA).2.1 (Or.inl (by decide))

/-- Counterexample to C7 as stated: on a record whose `hdurl` is present
but empty, the displayed image source is `url` ("a.jpg"), not the present
`hdurl` value (""). -/
theorem openModal_hdurl_present_cex :
    emptyHdurlRec.hdurl = some ""
    ∧ (openModal emptyHdurlRec).imageSrc = "a.jpg"
    ∧ (openModal emptyHdurlRec).imageSrc ≠ "" := by decide

/-- C2: with neither bound given, the filter renders exactly the
image-typed subsequence of the cache: the rendered list is the
`media_type == "image"` filter of the cached records, which is a
subsequence of the input (order preserved) containing precisely the
image-typed records. -/
theorem applyFilter_noBounds_images (st : AppState) (items : List Record)
    (h : st.cache = some items) :
    (applyFilter st "" "").galleryView
      = buildGallery (items.filter fun it => it.media_type == "image")
    ∧ (items.filter fun it => it.media_type == "image").Sublist items
    ∧ (∀ it, it ∈ (items.filter fun it => it.media_type == "image")
        ↔ it ∈ items ∧ it.media_type = "image") := by
  refine ⟨?_, List.filter_sublist items, fun it => ?_⟩
  · unfold applyFilter
    rw [h]
    rfl
  · simp [List.mem_filter]

/-- Witness for C2 on the cached scenario records. -/
theorem applyFilter_noBounds_images_witness :
    (applyFilter stAB "" "").galleryView
      = buildGallery ([recA, recB].filter fun it => it.media_type == "image") :=
  (applyFilter_noBounds_images stAB [recA, recB] rfl).1

/-- C4: for an image-typed record with a valid date, the filter predicate
keeps the record iff `start ≤ record.date` and `record.date ≤ end` for
each bound that is present; an absent bound imposes no constraint. -/
theorem keepRecord_inclusive_range (startD endD : Option Nat) (it : Record) (dv : Nat)
    (himg : it.media_type = "image") (hd : parseDate it.date = some dv) :
    keepRecord startD endD it = true
      ↔ ((∀ s ∈ startD, s ≤ dv) ∧ (∀ e ∈ endD, dv ≤ e)) := by
  cases startD <;> cases endD <;>
    simp [keepRecord, jsLtO, jsGtO, himg, hd, Nat.not_lt, Option.mem_def, and_comm]

/-- Witness for C4: the scenario's image record, dated 2024-01-01, is kept
by the bounds [2024-01-01, 2024-01-31], so both inclusive inequalities
hold. -/
theorem keepRecord_inclusive_range_witness :
    (∀ s ∈ (some 20240101 : Option Nat), s ≤ 20240101)
    ∧ (∀ e ∈ (some 20240131 : Option Nat), 20240101 ≤ e) :=
  (keepRecord_inclusive_range (some 20240101) (some 20240131) recA 20240101
    (by decide) (by decide)).mp (by decide)

/-- C5: the filter is total — with a loaded cache and at least one bound
given, when no cached record passes the (swapped-bound) predicate it
yields the empty list and the grid shows the "no match" placeholder
rather than failing. -/
theorem applyFilter_noMatch_placeholder (st : AppState) (items : List Record)
    (sv ev : String) (hc : st.cache = some items) (hb : ¬(sv = "" ∧ ev = ""))
    (hf : items.filter
        (keepRecord (swapBounds (parseBound sv) (parseBound ev)).1
                    (swapBounds (parseBound sv) (parseBound ev)).2) = []) :
    (applyFilter st sv ev).galleryView
      = GalleryView.placeholder "No images match that date range." := by
  have hbb : (sv == "" && ev == "") = false := by
    cases h1 : sv == "" <;> cases h2 : ev == "" <;> simp_all
  simp only [applyFilter, hc, hbb]
  simp [hf]

/-- Witness for C5, on the spec's own scenario: the range
[2024-01-02, 2024-01-10] matches neither cached record (A's date precedes
the start, B is a video), so the "no match" placeholder is shown. -/
theorem applyFilter_noMatch_placeholder_witness :
    (applyFilter stAB "2024-01-02" "2024-01-10").galleryView
      = GalleryView.placeholder "No images match that date range." :=
  applyFilter_noMatch_placeholder stAB [recA, recB] "2024-01-02" "2024-01-10"
    rfl (by decide) (by decide)

theorem buildGallery_cards_mem {items : List Record} {cs : List Card}
    (h : buildGallery items = GalleryView.cards cs) :
    ∀ c ∈ cs, ∃ it ∈ items, it.media_type = "image" ∧ c = mkCard it := by
  intro c hcm
  simp only [buildGallery] at h
  split at h
  · exact absurd h (by simp)
  · injection h with h
    subst h
    obtain ⟨it, hit, rfl⟩ := List.mem_map.mp hcm
    obtain ⟨hmem, hp⟩ := List.mem_filter.mp hit
    exact ⟨it, hmem, by simpa using hp, rfl⟩

/-- C9: non-image records never reach the rendered output: every card the
gallery builder emits — and every card the filter handler renders, for
any choice of bounds — comes from a cached record whose media_type is
"image". -/
theorem rendered_cards_image_only (items : List Record) (st : AppState) (sv ev : String) :
    (∀ cs, buildGallery items = GalleryView.cards cs →
      ∀ c ∈ cs, ∃ it ∈ items, it.media_type = "image" ∧ c = mkCard it)
    ∧ (st.cache = some items →
      ∀ cs, (applyFilter st sv ev).galleryView = GalleryView.cards cs →
        ∀ c ∈ cs, ∃ it ∈ items, it.media_type = "image" ∧ c = mkCard it) := by
  constructor
  · exact fun cs h => buildGallery_cards_mem h
  · intro hc cs h c hcm
    simp only [applyFilter, hc] at h
    split at h
    · obtain ⟨it, hit, himg, hcard⟩ := buildGallery_cards_mem h c hcm
      exact ⟨it, (List.mem_filter.mp hit).1, himg, hcard⟩
    · split at h
      · exact absurd h (by simp)
      · obtain ⟨it, hit, himg, hcard⟩ := buildGallery_cards_mem h c hcm
        exact ⟨it, (List.mem_filter.mp hit).1, himg, hcard⟩

/-- Witness for C9: the single card rendered from the cached scenario
records comes from an image-typed record. -/
theorem rendered_cards_image_only_witness :
    ∃ it ∈ [recA, recB], it.media_type = "image" ∧ mkCard recA = mkCard it :=
  (rendered_cards_image_only [recA, recB] stAB "" "").2 rfl
    [mkCard recA] (by decide) (mkCard recA) (by simp)

/-- C3: for valid dates `a > b`, filtering with bounds (a, b) equals
filtering with bounds (b, a): the engine swaps the bounds so the smaller
date is always the lower bound. -/
theorem applyFilter_swap_bounds (st : AppState) (a b : String) (x y : Nat)
    (ha : parseDate a = some x) (hb : parseDate b = some y) (hgt : y < x) :
    applyFilter st a b = applyFilter st b a := by
  have hae : a ≠ "" := by
    rintro rfl
    rw [show parseDate "" = none from rfl] at ha
    cases ha
  have hbe : b ≠ "" := by
    rintro rfl
    rw [show parseDate "" = none from rfl] at hb
    cases hb
  have hpa : parseBound a = some x := by simp [parseBound, hae, ha]
  have hpb : parseBound b = some y := by simp [parseBound, hbe, hb]
  have hsw : swapBounds (parseBound a) (parseBound b)
      = swapBounds (parseBound b) (parseBound a) := by
    simp [swapBounds, hpa, hpb, jsGtO, hgt, Nat.lt_asymm hgt]
  have h1 : (a == "" && b == "") = false := by simp [hae]
  have h2 : (b == "" && a == "") = false := by simp [hbe]
  unfold applyFilter
  cases st.cache with
  | none => rfl
  | some items => simp only [h1, h2, hsw, Bool.false_eq_true, if_false]

/-- Witness for C3 with the reversed pair ("2024-01-05", "2024-01-01"). -/
theorem applyFilter_swap_bounds_witness :
    applyFilter stAB "2024-01-05" "2024-01-01"
      = applyFilter stAB "2024-01-01" "2024-01-05" :=
  applyFilter_swap_bounds stAB "2024-01-05" "2024-01-01" 20240105 20240101
    (by decide) (by decide) (by decide)
